import Mathlib

/-!
Verification of the CMS TEAM ROI calculator (src/team_roi_calculator_app.py).

The script collects global assumptions in a sidebar (CMS discount percentage,
quality adjustment percentage, total annual implementation cost), per-procedure
inputs (annual volume, baseline cost, expected cost-reduction percentage), and
then computes, row by row over a dataframe:

  df["Target price"]              = df["Baseline cost"] * (1 - discount_pct / 100)
  df["Expected cost"]             = df["Baseline cost"] * (1 - df["Cost-reduction %"] / 100)
  df["Reconciliation $/episode"]  = df["Target price"] - df["Expected cost"]
  df["Annual reconciliation"]     = df["Reconciliation $/episode"] * df["Volume"]
  df["Quality-adjusted reconciliation"] = df["Annual reconciliation"] * (1 + quality_adj_pct / 100)

followed by the aggregates

  total_rec  = df["Quality-adjusted reconciliation"].sum()
  net_impact = total_rec - impl_cost_total
  roi_pct    = (net_impact / impl_cost_total * 100) if impl_cost_total else 0

An empty rows list triggers `st.stop()` before any calculation (lines 114-116);
otherwise the calculation is unconditional.  We model the numbers as exact
rationals.
-/

/-- Global sidebar assumptions of the app: the CMS discount percentage applied
to the target price, the quality performance adjustment percentage, and the
flat total annual implementation cost in dollars. -/
structure EconomicAssumptions where
  discount_pct : ℚ
  quality_adj_pct : ℚ
  impl_cost_total : ℚ
  deriving DecidableEq, Repr

/-- One episode-category input row, as assembled into `rows` by the app:
procedure label, annual volume, baseline average cost per episode, and the
expected cost-reduction percentage. -/
structure ProcedureCategory where
  procedure : String
  volume : ℚ
  baseline_cost : ℚ
  cost_reduction_pct : ℚ
  deriving DecidableEq, Repr

/-- One output row of the dataframe: the input columns together with the five
derived columns added by lines 124-129 of the script. -/
structure ResultRow where
  procedure : String
  volume : ℚ
  baseline_cost : ℚ
  cost_reduction_pct : ℚ
  target_price : ℚ
  expected_cost : ℚ
  reconciliation_per_episode : ℚ
  annual_reconciliation : ℚ
  quality_adjusted_reconciliation : ℚ
  deriving DecidableEq, Repr

/-- The five-step per-row pipeline of lines 124-129. -/
def computeRow (a : EconomicAssumptions) (c : ProcedureCategory) : ResultRow :=
  let target_price := c.baseline_cost * (1 - a.discount_pct / 100)
  let expected_cost := c.baseline_cost * (1 - c.cost_reduction_pct / 100)
  let reconciliation_per_episode := target_price - expected_cost
  let annual_reconciliation := reconciliation_per_episode * c.volume
  let quality_adjusted_reconciliation :=
    annual_reconciliation * (1 + a.quality_adj_pct / 100)
  { procedure := c.procedure
    volume := c.volume
    baseline_cost := c.baseline_cost
    cost_reduction_pct := c.cost_reduction_pct
    target_price := target_price
    expected_cost := expected_cost
    reconciliation_per_episode := reconciliation_per_episode
    annual_reconciliation := annual_reconciliation
    quality_adjusted_reconciliation := quality_adjusted_reconciliation }

/-- The dataframe pipeline applied to every input row, in input order. -/
def computeRows (a : EconomicAssumptions) (cats : List ProcedureCategory) :
    List ResultRow :=
  cats.map (computeRow a)

/-- `df["Quality-adjusted reconciliation"].sum()` (line 148). -/
def totalRec (rows : List ResultRow) : ℚ :=
  (rows.map (fun r => r.quality_adjusted_reconciliation)).sum

/-- The four aggregate scalars printed at the bottom of the page. -/
structure Totals where
  total_rec : ℚ
  impl_cost_total : ℚ
  net_impact : ℚ
  roi_pct : ℚ
  deriving DecidableEq, Repr

/-- Lines 148-150: total reconciliation, the flat implementation cost, net
impact, and the ROI percentage with the Python-truthiness guard
`(net_impact / impl_cost_total * 100) if impl_cost_total else 0`. -/
def computeTotals (a : EconomicAssumptions) (rows : List ResultRow) : Totals :=
  let total_rec := totalRec rows
  let net_impact := total_rec - a.impl_cost_total
  let roi_pct :=
    if a.impl_cost_total = 0 then 0 else net_impact / a.impl_cost_total * 100
  { total_rec := total_rec
    impl_cost_total := a.impl_cost_total
    net_impact := net_impact
    roi_pct := roi_pct }

/-- Overall outcome of one script run: either the empty-rows guard of lines
114-116 fires (`st.warning` followed by `st.stop()`, i.e. nothing to compute),
or the full calculation and aggregates are produced. -/
inductive ComputeResult where
  | nothingToCompute : ComputeResult
  | results : List ResultRow → Totals → ComputeResult
  deriving DecidableEq, Repr

/-- The whole run: guard on an empty rows list, otherwise compute every row
and the aggregates.  The script performs no other validation. -/
def compute (a : EconomicAssumptions) (cats : List ProcedureCategory) :
    ComputeResult :=
  if cats.isEmpty then ComputeResult.nothingToCompute
  else
    let rows := computeRows a cats
    ComputeResult.results rows (computeTotals a rows)

/-- Widget bound on the CMS discount input (number_input, lines 37-44):
min_value 0.0, max_value 10.0. -/
def discountWidgetOk (d : ℚ) : Prop := 0 ≤ d ∧ d ≤ 10

/-- Widget bound on the per-procedure cost-reduction slider (lines 96-104):
min_value 0.0, max_value 30.0. -/
def reductionWidgetOk (r : ℚ) : Prop := 0 ≤ r ∧ r ≤ 30

/-- Widget bound on the annual volume input (lines 82-88): min_value 0. -/
def volumeWidgetOk (v : ℚ) : Prop := 0 ≤ v

/-- Widget bound on the baseline cost input (lines 89-95): min_value 0.0. -/
def baselineWidgetOk (b : ℚ) : Prop := 0 ≤ b

/-- C1: for every assumptions value and category list, the run (when the list
is nonempty) produces exactly one output row per category in input order, and
each row satisfies the five-step pipeline: target price, expected cost,
reconciliation per episode, annual reconciliation, and quality-adjusted
reconciliation, with both percentages divided by 100 inside the formulas. -/
theorem c1_pipeline (a : EconomicAssumptions) (cats : List ProcedureCategory)
    (h : cats ≠ []) :
    compute a cats =
      ComputeResult.results (cats.map (computeRow a))
        (computeTotals a (cats.map (computeRow a))) ∧
    ∀ c : ProcedureCategory,
      (computeRow a c).target_price =
          c.baseline_cost * (1 - a.discount_pct / 100) ∧
      (computeRow a c).expected_cost =
          c.baseline_cost * (1 - c.cost_reduction_pct / 100) ∧
      (computeRow a c).reconciliation_per_episode =
          (computeRow a c).target_price - (computeRow a c).expected_cost ∧
      (computeRow a c).annual_reconciliation =
          (computeRow a c).reconciliation_per_episode * c.volume ∧
      (computeRow a c).quality_adjusted_reconciliation =
          (computeRow a c).annual_reconciliation *
            (1 + a.quality_adj_pct / 100) := by
  constructor
  · simp [compute, computeRows, List.isEmpty_iff, h]
  · intro c
    refine ⟨rfl, rfl, rfl, rfl, rfl⟩

/-- C1 witness: the pipeline instantiated on the default joint-replacement
row with the default sidebar assumptions. -/
theorem c1_pipeline_witness :
    compute ⟨3, 0, 250000⟩ [⟨"Lower extremity joint replacement", 150, 26500, 5⟩] =
      ComputeResult.results
        ([⟨"Lower extremity joint replacement", 150, 26500, 5⟩].map
          (computeRow ⟨3, 0, 250000⟩))
        (computeTotals ⟨3, 0, 250000⟩
          ([⟨"Lower extremity joint replacement", 150, 26500, 5⟩].map
            (computeRow ⟨3, 0, 250000⟩))) :=
  (c1_pipeline ⟨3, 0, 250000⟩
    [⟨"Lower extremity joint replacement", 150, 26500, 5⟩] (by simp)).1

/-- C2: the aggregates of lines 148-149: total reconciliation is the sum of
the quality-adjusted reconciliation column, the program cost total is the flat
user-supplied annual implementation cost constant, and the net impact is their
difference. -/
theorem c2_aggregates (a : EconomicAssumptions) (rows : List ResultRow) :
    (computeTotals a rows).total_rec =
        (rows.map (fun r => r.quality_adjusted_reconciliation)).sum ∧
    (computeTotals a rows).impl_cost_total = a.impl_cost_total ∧
    (computeTotals a rows).net_impact =
        (computeTotals a rows).total_rec -
          (computeTotals a rows).impl_cost_total :=
  ⟨rfl, rfl, rfl⟩

/-- C3: the ROI guard of line 150: when the implementation cost total is
nonzero, roi_pct is net impact over cost times 100; when it is zero, roi_pct
is exactly 0, a defined value rather than an error. -/
theorem c3_roi_guard (a : EconomicAssumptions) (rows : List ResultRow) :
    (a.impl_cost_total ≠ 0 →
      (computeTotals a rows).roi_pct =
        (computeTotals a rows).net_impact / a.impl_cost_total * 100) ∧
    (a.impl_cost_total = 0 → (computeTotals a rows).roi_pct = 0) := by
  constructor
  · intro h
    simp [computeTotals, h]
  · intro h
    simp [computeTotals, h]

/-- C3 witness: both branches of the guard at concrete inputs: the default
250000 dollar cost gives the quotient formula, and a zero cost gives roi 0. -/
theorem c3_roi_guard_witness :
    (computeTotals ⟨3, 0, 250000⟩ []).roi_pct =
        (computeTotals ⟨3, 0, 250000⟩ []).net_impact / 250000 * 100 ∧
    (computeTotals ⟨3, 0, 0⟩ []).roi_pct = 0 :=
  ⟨(c3_roi_guard ⟨3, 0, 250000⟩ []).1 (by norm_num),
   (c3_roi_guard ⟨3, 0, 0⟩ []).2 rfl⟩

/-- C7: annual reconciliation is exactly linear in annual volume: scaling the
volume of a category by any rational k scales its annual reconciliation, and
hence its quality-adjusted reconciliation, by exactly k. -/
theorem c7_linearity (a : EconomicAssumptions) (c : ProcedureCategory)
    (k : ℚ) :
    (computeRow a { c with volume := k * c.volume }).annual_reconciliation =
        k * (computeRow a c).annual_reconciliation ∧
    (computeRow a
        { c with volume := k * c.volume }).quality_adjusted_reconciliation =
        k * (computeRow a c).quality_adjusted_reconciliation := by
  constructor
  · simp only [computeRow]
    ring
  · simp only [computeRow]
    ring

/-- C9: the per-episode reconciliation collapses algebraically to
baseline_cost * (cost_reduction_pct - discount_pct) / 100, so for a positive
baseline cost it is positive exactly when the cost reduction percentage
exceeds the CMS discount percentage, independent of volume and quality
adjustment. -/
theorem c9_reconciliation_sign (a : EconomicAssumptions)
    (c : ProcedureCategory) :
    (computeRow a c).reconciliation_per_episode =
        c.baseline_cost * (c.cost_reduction_pct - a.discount_pct) / 100 ∧
    (0 < c.baseline_cost →
      (0 < (computeRow a c).reconciliation_per_episode ↔
        a.discount_pct < c.cost_reduction_pct)) := by
  have hrec : (computeRow a c).reconciliation_per_episode =
      c.baseline_cost * (c.cost_reduction_pct - a.discount_pct) / 100 := by
    simp only [computeRow]
    ring
  refine ⟨hrec, fun hb => ?_⟩
  rw [hrec]
  constructor
  · intro h
    by_contra h'
    push_neg at h'
    nlinarith
  · intro h
    have hd : (0:ℚ) < c.cost_reduction_pct - a.discount_pct := by linarith
    positivity

/-- C9 witness: with a 3 percent discount, 5 percent reduction and 26500
baseline, the per-episode reconciliation is 530 and is indeed positive. -/
theorem c9_reconciliation_sign_witness :
    (computeRow ⟨3, 0, 250000⟩
        ⟨"Lower extremity joint replacement", 150, 26500, 5⟩).reconciliation_per_episode =
      26500 * (5 - 3) / 100 ∧
    (0 < (computeRow ⟨3, 0, 250000⟩
        ⟨"Lower extremity joint replacement", 150, 26500, 5⟩).reconciliation_per_episode ↔
      (3:ℚ) < 5) :=
  ⟨(c9_reconciliation_sign ⟨3, 0, 250000⟩
      ⟨"Lower extremity joint replacement", 150, 26500, 5⟩).1,
   (c9_reconciliation_sign ⟨3, 0, 250000⟩
      ⟨"Lower extremity joint replacement", 150, 26500, 5⟩).2 (by norm_num)⟩

/-- Modelled from the spec: the round-to-one-decimal used when deriving the
cost-reduction percentage from SNF substitution; the variant containing this
derivation is not among the source files under src/. -/
def roundTo1 (q : ℚ) : ℚ := (round (10 * q) : ℤ) / 10

/-- Modelled from the spec: the SNF-utilization-derived cost-reduction
percentage, `(snf_util * snf_los_days * snf_daily_cost - home_health_extra -
program_cost_per_episode) / baseline_cost * 100`, rounded to one decimal;
this variant is not among the source files under src/. -/
def snfDerivedReductionPct (snf_util snf_los_days snf_daily_cost
    home_health_extra program_cost_per_episode baseline_cost : ℚ) : ℚ :=
  roundTo1 ((snf_util * snf_los_days * snf_daily_cost - home_health_extra -
    program_cost_per_episode) / baseline_cost * 100)

/-- C4: example scenario 1: the SNF-derived reduction is 9.2 percent, and with
a 3 percent discount, 0.3 percent quality adjustment, 100000 dollar program
cost and one category (baseline 26500, volume 100, reduction 9.2), the run
yields target price 25705, expected cost 24062, reconciliation 1643 per
episode, annual 164300, quality-adjusted 164792.9, net impact 64792.9 and
roi_pct 64.7929 (within 0.003 of 64.79). -/
theorem c4_scenario :
    snfDerivedReductionPct (45/100) (2645/100) 305 200 1000 26500 = 92/10 ∧
    (computeRow ⟨3, 3/10, 100000⟩
        ⟨"Lower extremity joint replacement", 100, 26500, 92/10⟩).target_price
        = 25705 ∧
    (computeRow ⟨3, 3/10, 100000⟩
        ⟨"Lower extremity joint replacement", 100, 26500, 92/10⟩).expected_cost
        = 24062 ∧
    (computeRow ⟨3, 3/10, 100000⟩
        ⟨"Lower extremity joint replacement", 100, 26500,
          92/10⟩).reconciliation_per_episode = 1643 ∧
    (computeRow ⟨3, 3/10, 100000⟩
        ⟨"Lower extremity joint replacement", 100, 26500,
          92/10⟩).annual_reconciliation = 164300 ∧
    (computeRow ⟨3, 3/10, 100000⟩
        ⟨"Lower extremity joint replacement", 100, 26500,
          92/10⟩).quality_adjusted_reconciliation = 1647929/10 ∧
    (computeTotals ⟨3, 3/10, 100000⟩
        (computeRows ⟨3, 3/10, 100000⟩
          [⟨"Lower extremity joint replacement", 100, 26500, 92/10⟩])).net_impact
        = 647929/10 ∧
    (computeTotals ⟨3, 3/10, 100000⟩
        (computeRows ⟨3, 3/10, 100000⟩
          [⟨"Lower extremity joint replacement", 100, 26500, 92/10⟩])).roi_pct
        = 647929/10000 ∧
    |(647929/10000 : ℚ) - 6479/100| < 3/1000 := by
  refine ⟨?_, ?_, ?_, ?_, ?_, ?_, ?_, ?_, by norm_num [abs_lt]⟩
  · norm_num [snfDerivedReductionPct, roundTo1, round_eq]
  all_goals norm_num [computeRow, computeRows, computeTotals, totalRec]

/-- C8: permuting the input category list permutes the output rows by the same
rearrangement (each input still maps to its own row, in order) and leaves the
whole aggregate record, hence all four scalars, unchanged. -/
theorem c8_order_invariance (a : EconomicAssumptions)
    (cats1 cats2 : List ProcedureCategory) (h : cats1.Perm cats2) :
    computeRows a cats2 = cats2.map (computeRow a) ∧
    (computeRows a cats1).Perm (computeRows a cats2) ∧
    computeTotals a (computeRows a cats1) =
      computeTotals a (computeRows a cats2) := by
  have hmap : (computeRows a cats1).Perm (computeRows a cats2) :=
    h.map (computeRow a)
  have hsum : totalRec (computeRows a cats1) =
      totalRec (computeRows a cats2) :=
    List.Perm.sum_eq
      (hmap.map (fun r => r.quality_adjusted_reconciliation))
  exact ⟨rfl, hmap, by simp [computeTotals, hsum]⟩

/-- C8 witness: swapping the two default categories permutes the rows and
leaves the aggregates equal. -/
theorem c8_order_invariance_witness :
    computeRows ⟨3, 0, 250000⟩
        [⟨"Hip/femur fracture", 80, 29500, 5⟩,
         ⟨"Spinal fusion", 40, 42000, 5⟩] =
      [⟨"Hip/femur fracture", 80, 29500, 5⟩,
       ⟨"Spinal fusion", 40, 42000, 5⟩].map (computeRow ⟨3, 0, 250000⟩) ∧
    (computeRows ⟨3, 0, 250000⟩
        [⟨"Spinal fusion", 40, 42000, 5⟩,
         ⟨"Hip/femur fracture", 80, 29500, 5⟩]).Perm
      (computeRows ⟨3, 0, 250000⟩
        [⟨"Hip/femur fracture", 80, 29500, 5⟩,
         ⟨"Spinal fusion", 40, 42000, 5⟩]) ∧
    computeTotals ⟨3, 0, 250000⟩
        (computeRows ⟨3, 0, 250000⟩
          [⟨"Spinal fusion", 40, 42000, 5⟩,
           ⟨"Hip/femur fracture", 80, 29500, 5⟩]) =
      computeTotals ⟨3, 0, 250000⟩
        (computeRows ⟨3, 0, 250000⟩
          [⟨"Hip/femur fracture", 80, 29500, 5⟩,
           ⟨"Spinal fusion", 40, 42000, 5⟩]) :=
  c8_order_invariance ⟨3, 0, 250000⟩
    [⟨"Spinal fusion", 40, 42000, 5⟩, ⟨"Hip/femur fracture", 80, 29500, 5⟩]
    [⟨"Hip/femur fracture", 80, 29500, 5⟩, ⟨"Spinal fusion", 40, 42000, 5⟩]
    (List.Perm.swap (⟨"Hip/femur fracture", 80, 29500, 5⟩ : ProcedureCategory)
      (⟨"Spinal fusion", 40, 42000, 5⟩ : ProcedureCategory) [])

/-- C10: for a nonnegative baseline cost, a discount percentage in [0,100]
keeps the target price between 0 and the baseline cost, a reduction
percentage in [0,100] does the same for the expected cost, and the widget
bounds (discount in [0,10], reduction in [0,30]) imply those ranges, so under
the widgets neither derived price can exceed the baseline cost. -/
theorem c10_price_bounds (a : EconomicAssumptions) (c : ProcedureCategory)
    (hb : 0 ≤ c.baseline_cost) :
    (0 ≤ a.discount_pct → a.discount_pct ≤ 100 →
      0 ≤ (computeRow a c).target_price ∧
      (computeRow a c).target_price ≤ c.baseline_cost) ∧
    (0 ≤ c.cost_reduction_pct → c.cost_reduction_pct ≤ 100 →
      0 ≤ (computeRow a c).expected_cost ∧
      (computeRow a c).expected_cost ≤ c.baseline_cost) ∧
    (discountWidgetOk a.discount_pct →
      0 ≤ a.discount_pct ∧ a.discount_pct ≤ 100) ∧
    (reductionWidgetOk c.cost_reduction_pct →
      0 ≤ c.cost_reduction_pct ∧ c.cost_reduction_pct ≤ 100) := by
  have htp : (computeRow a c).target_price =
      c.baseline_cost * (1 - a.discount_pct / 100) := rfl
  have hec : (computeRow a c).expected_cost =
      c.baseline_cost * (1 - c.cost_reduction_pct / 100) := rfl
  refine ⟨fun h0 h100 => ⟨?_, ?_⟩, fun h0 h100 => ⟨?_, ?_⟩,
    fun hw => ⟨hw.1, by have := hw.2; linarith⟩,
    fun hw => ⟨hw.1, by have := hw.2; linarith⟩⟩
  · rw [htp]; nlinarith
  · rw [htp]; nlinarith
  · rw [hec]; nlinarith
  · rw [hec]; nlinarith

/-- C10 witness: the default joint-replacement inputs satisfy all four
bounds: both prices lie between 0 and the 26500 baseline. -/
theorem c10_price_bounds_witness :
    (0 ≤ (computeRow ⟨3, 0, 250000⟩
        ⟨"Lower extremity joint replacement", 150, 26500, 5⟩).target_price ∧
      (computeRow ⟨3, 0, 250000⟩
        ⟨"Lower extremity joint replacement", 150, 26500, 5⟩).target_price
        ≤ 26500) ∧
    (0 ≤ (computeRow ⟨3, 0, 250000⟩
        ⟨"Lower extremity joint replacement", 150, 26500, 5⟩).expected_cost ∧
      (computeRow ⟨3, 0, 250000⟩
        ⟨"Lower extremity joint replacement", 150, 26500, 5⟩).expected_cost
        ≤ 26500) := by
  have h := c10_price_bounds ⟨3, 0, 250000⟩
    ⟨"Lower extremity joint replacement", 150, 26500, 5⟩ (by norm_num)
  exact ⟨h.1 (by norm_num) (by norm_num), h.2.1 (by norm_num) (by norm_num)⟩

/-- C5 counterexample: a nonempty list whose single category has annual
volume 0 is NOT sent to the nothing-to-compute state: the run computes a full
result, with a zero-valued row and roi_pct equal to -100, because the guard
of lines 114-116 tests only emptiness of the rows list, never the volumes. -/
theorem c5_counterexample :
    compute ⟨3, 0, 250000⟩ [⟨"Spinal fusion", 0, 42000, 5⟩] ≠
      ComputeResult.nothingToCompute ∧
    compute ⟨3, 0, 250000⟩ [⟨"Spinal fusion", 0, 42000, 5⟩] =
      ComputeResult.results
        (computeRows ⟨3, 0, 250000⟩ [⟨"Spinal fusion", 0, 42000, 5⟩])
        (computeTotals ⟨3, 0, 250000⟩
          (computeRows ⟨3, 0, 250000⟩ [⟨"Spinal fusion", 0, 42000, 5⟩])) ∧
    (computeTotals ⟨3, 0, 250000⟩
        (computeRows ⟨3, 0, 250000⟩ [⟨"Spinal fusion", 0, 42000, 5⟩])).roi_pct
      = -100 := by
  refine ⟨by simp [compute], by simp [compute], ?_⟩
  norm_num [computeTotals, totalRec, computeRows, computeRow]

/-- C5 amended: the nothing-to-compute state is returned exactly when the
category list is empty; a nonempty list whose volumes are all zero is computed
normally, each zero-volume category yielding a row with zero annual and
quality-adjusted reconciliation. -/
theorem c5_amended (a : EconomicAssumptions) (cats : List ProcedureCategory) :
    (compute a cats = ComputeResult.nothingToCompute ↔ cats = []) ∧
    ∀ c : ProcedureCategory, c ∈ cats → c.volume = 0 →
      (computeRow a c).annual_reconciliation = 0 ∧
      (computeRow a c).quality_adjusted_reconciliation = 0 := by
  constructor
  · cases cats with
    | nil => simp [compute]
    | cons c cs => simp [compute]
  · intro c _ hv
    constructor
    · simp [computeRow, hv]
    · simp [computeRow, hv]

/-- C5 amended witness: the empty list is the nothing-to-compute state, and a
zero-volume spinal-fusion category produces a zero annual reconciliation. -/
theorem c5_amended_witness :
    compute ⟨3, 0, 250000⟩ ([] : List ProcedureCategory) =
      ComputeResult.nothingToCompute ∧
    (computeRow ⟨3, 0, 250000⟩
        ⟨"Spinal fusion", 0, 42000, 5⟩).annual_reconciliation = 0 :=
  ⟨(c5_amended ⟨3, 0, 250000⟩ []).1.mpr rfl,
   ((c5_amended ⟨3, 0, 250000⟩ [⟨"Spinal fusion", 0, 42000, 5⟩]).2
      ⟨"Spinal fusion", 0, 42000, 5⟩ (by simp) rfl).1⟩

/-- C6 counterexample: a category with annual volume -5 is not rejected: the
run returns a full computed result containing the offending row, whose annual
reconciliation is -2950; no InvalidCategory error exists anywhere in the
script, so the claim that the calculation is rejected is false. -/
theorem c6_counterexample :
    compute ⟨3, 0, 250000⟩ [⟨"Hip/femur fracture", -5, 29500, 5⟩] =
      ComputeResult.results
        (computeRows ⟨3, 0, 250000⟩ [⟨"Hip/femur fracture", -5, 29500, 5⟩])
        (computeTotals ⟨3, 0, 250000⟩
          (computeRows ⟨3, 0, 250000⟩
            [⟨"Hip/femur fracture", -5, 29500, 5⟩])) ∧
    (computeRows ⟨3, 0, 250000⟩
        [⟨"Hip/femur fracture", -5, 29500, 5⟩]).length = 1 ∧
    (computeRow ⟨3, 0, 250000⟩
        ⟨"Hip/femur fracture", -5, 29500, 5⟩).annual_reconciliation = -2950 := by
  refine ⟨by simp [compute], by simp [computeRows], ?_⟩
  norm_num [computeRow]

/-- C6 amended: the core calculation performs no validation at all: every
nonempty category list, including one holding a negative volume or negative
baseline cost, is computed in full with one row per category and no error;
negative values are excluded only by the widget bounds, which require volume
and baseline cost to be nonnegative. -/
theorem c6_amended (a : EconomicAssumptions) (cats : List ProcedureCategory)
    (h : cats ≠ []) :
    compute a cats =
      ComputeResult.results (computeRows a cats)
        (computeTotals a (computeRows a cats)) ∧
    (computeRows a cats).length = cats.length ∧
    (∀ v : ℚ, volumeWidgetOk v ↔ 0 ≤ v) ∧
    (∀ b : ℚ, baselineWidgetOk b ↔ 0 ≤ b) := by
  refine ⟨?_, ?_, fun v => Iff.rfl, fun b => Iff.rfl⟩
  · simp [compute, List.isEmpty_iff, h]
  · simp [computeRows]

/-- C6 amended witness: the amended statement applied to the single-category
list with volume -5: the run still returns a full computed result. -/
theorem c6_amended_witness :
    compute ⟨3, 0, 250000⟩ [⟨"Hip/femur fracture", -5, 29500, 5⟩] =
      ComputeResult.results
        (computeRows ⟨3, 0, 250000⟩ [⟨"Hip/femur fracture", -5, 29500, 5⟩])
        (computeTotals ⟨3, 0, 250000⟩
          (computeRows ⟨3, 0, 250000⟩
            [⟨"Hip/femur fracture", -5, 29500, 5⟩])) ∧
    (computeRows ⟨3, 0, 250000⟩
        [⟨"Hip/femur fracture", -5, 29500, 5⟩]).length = 1 :=
  ⟨(c6_amended ⟨3, 0, 250000⟩ [⟨"Hip/femur fracture", -5, 29500, 5⟩]
      (by simp)).1,
   (c6_amended ⟨3, 0, 250000⟩ [⟨"Hip/femur fracture", -5, 29500, 5⟩]
      (by simp)).2.1⟩
